import Mathlib

/-!
Shallow embedding of the synthetic-data-service core
(`src/api-mock/server.js` and `src/mcp-server/index.js`):
the job lifecycle engine, the mock result generator, the HTTP-style
endpoints, the tool-dispatch layer and the guidance classifier,
together with theorems settling the specification's claims.
-/

namespace SynthData

/-- Job lifecycle status, `job.status` strings of `server.js`. -/
inductive Status
  | pending
  | running
  | completed
  | cancelled
  | failed
deriving DecidableEq, Repr

/-- The status as the string stored in the JS job object. -/
def statusStr : Status → String
  | .pending => "pending"
  | .running => "running"
  | .completed => "completed"
  | .cancelled => "cancelled"
  | .failed => "failed"

/-- The configuration fields of a job that the code ever reads
(`config.domain`, `config.difficulty`, ... in `generateMockResults`);
`none` models an absent JS field. -/
structure Config where
  domain : Option String := none
  difficulty : Option String := none
  source_length : Option String := none
  style : Option String := none
  length : Option String := none
  topics : Option (List String) := none
  class_labels : Option (List String) := none
deriving DecidableEq, Repr

/-- One generated record, one constructor per `switch` branch of
`generateMockResults`.  The classification label is an `Option` because
`labels[i % labels.length]` is `undefined` in JS when `labels` is empty. -/
inductive ResultRecord
  | qa (id : Nat) (question answer context : String)
  | summ (id : Nat) (source_text summary : String)
  | classif (id : Nat) (text : String) (label : Option String) (confidence : ℚ)
  | textgen (id : Nat) (text : String) (meta_style : Option String)
      (meta_topics : Option (List String))
  | generic (id : Nat) (data : String)
deriving DecidableEq, Repr

/-- The label carried by a record (for classification records). -/
def ResultRecord.label : ResultRecord → Option String
  | .classif _ _ l _ => l
  | _ => none

/-- `const labels = config.class_labels || ['class_1', 'class_2', 'class_3']`. -/
def classLabels (config : Config) : List String :=
  config.class_labels.getD ["class_1", "class_2", "class_3"]

/-- `generateMockResults(taskType, numSamples, config)` of `server.js`.
`rand` is the stream of `Math.random()` draws (one per classification
record); everything else in the function is deterministic. -/
def generateMockResults (taskType : String) (numSamples : Nat) (config : Config)
    (rand : Nat → ℚ) : List ResultRecord :=
  let sampleCount := min numSamples 10
  match taskType with
  | "question_answering" =>
      (List.range sampleCount).map fun i =>
        .qa (i + 1)
          ("What is an example question about " ++ config.domain.getD "general knowledge"
            ++ " #" ++ toString (i + 1) ++ "?")
          ("This is a " ++ config.difficulty.getD "medium"
            ++ " difficulty answer providing detailed information about the topic.")
          ("Context for question " ++ toString (i + 1))
  | "summarization" =>
      (List.range sampleCount).map fun i =>
        .summ (i + 1)
          ("This is a " ++ config.source_length.getD "medium"
            ++ " length source document #" ++ toString (i + 1)
            ++ " that needs to be summarized. It contains multiple sentences with various information.")
          (config.style.getD "Abstractive" ++ " summary of document " ++ toString (i + 1) ++ ".")
  | "classification" =>
      (List.range sampleCount).map fun i =>
        .classif (i + 1)
          ("Sample text for classification #" ++ toString (i + 1))
          ((classLabels config).get? (i % (classLabels config).length))
          (0.85 + rand i * 0.15)
  | "text_generation" =>
      (List.range sampleCount).map fun i =>
        .textgen (i + 1)
          ("Generated " ++ config.style.getD "general" ++ " text sample #" ++ toString (i + 1)
            ++ " with " ++ config.length.getD "medium" ++ " length.")
          config.style config.topics
  | _ =>
      (List.range sampleCount).map fun i =>
        .generic (i + 1) ("Generic synthetic data sample #" ++ toString (i + 1))

/-- A Job record as stored in the `jobs` map of `server.js`.
Timestamps are abstract instants (`Nat`). -/
structure Job where
  job_id : String
  name : String
  task_type : String
  num_samples : Nat
  config : Config
  status : Status
  progress : Nat
  created_at : Nat
  updated_at : Nat
  completed_at : Option Nat := none
  results : Option (List ResultRecord) := none
deriving DecidableEq, Repr

/-- The first scheduled transition (2s `setTimeout`): unconditionally sets
`status = running`, `progress = 25`. -/
def transitionRunning25 (now : Nat) (j : Job) : Job :=
  { j with status := .running, progress := 25, updated_at := now }

/-- The second scheduled transition (5s `setTimeout`): unconditionally sets
`status = running`, `progress = 75`. -/
def transitionRunning75 (now : Nat) (j : Job) : Job :=
  { j with status := .running, progress := 75, updated_at := now }

/-- The final scheduled transition (10s `setTimeout`): unconditionally sets
`status = completed`, `progress = 100` and attaches the generated results. -/
def transitionComplete (now : Nat) (rand : Nat → ℚ) (j : Job) : Job :=
  { j with
      status := .completed
      progress := 100
      updated_at := now
      completed_at := some now
      results := some (generateMockResults j.task_type j.num_samples j.config rand) }

/-- The error bodies the endpoints can answer with, one constructor per
distinct `res.status(4xx).json({...})` site. -/
inductive ApiError
  | notFound
  | invalidArgument (msg : String)
  | jobNotCompleted (status : Status) (progress : Nat)
  | cannotCancel (status : Status)
deriving DecidableEq, Repr

/-- The HTTP code each error body is sent with. -/
def errorHttpStatus : ApiError → Nat
  | .notFound => 404
  | .invalidArgument _ => 400
  | .jobNotCompleted _ _ => 400
  | .cannotCancel _ => 400

/-- The request body of `POST /v1/jobs`; `none` models an absent JS field
(so `name = some ""` is an empty, falsy, name). -/
structure CreateReq where
  name : Option String := none
  task_type : Option String := none
  num_samples : Option Nat := none
  config : Option Config := none
deriving DecidableEq, Repr

/-- The `201` body of `POST /v1/jobs`. -/
structure CreateResp where
  job_id : String
  status : String
  message : String
deriving DecidableEq, Repr

/-- The job store: `jobs` is a JS `Map` keyed by a fresh uuid, so its
iteration order is insertion order; we model it as the list of jobs in
insertion order. -/
abbrev JobStore := List Job

/-- `jobs.get(job_id)`. -/
def findJob (store : JobStore) (job_id : String) : Option Job :=
  List.find? (fun j => j.job_id == job_id) store

/-- Replacing one job of the store, preserving insertion order (the JS
code mutates the object held in the `Map` in place). -/
def updateJob (store : JobStore) (job_id : String) (j : Job) : JobStore :=
  List.map (fun k => if k.job_id == job_id then j else k) store

/-- The job object built by `POST /v1/jobs` before the timers run. -/
def mkJob (jobId : String) (now : Nat) (req : CreateReq) : Job :=
  { job_id := jobId
    name := req.name.getD ""
    task_type := req.task_type.getD ""
    num_samples := req.num_samples.getD 100
    config := req.config.getD {}
    status := .pending
    progress := 0
    created_at := now
    updated_at := now }

/-- The `201` response body of `POST /v1/jobs`. -/
def mkCreateResp (jobId : String) (req : CreateReq) : CreateResp :=
  { job_id := jobId
    status := statusStr .pending
    message := "Job \"" ++ req.name.getD "" ++ "\" created successfully" }

/-- `POST /v1/jobs`: validates `!name || !task_type`, stores a fresh
pending job and answers `201` at once (the three `setTimeout` transitions
are armed separately, see `transitionRunning25` etc.). -/
def createJob (store : JobStore) (jobId : String) (now : Nat) (req : CreateReq) :
    Except ApiError (JobStore × CreateResp) :=
  if req.name.getD "" == "" || req.task_type.getD "" == "" then
    .error (.invalidArgument "name and task_type are required")
  else
    .ok (store ++ [mkJob jobId now req], mkCreateResp jobId req)

/-- The `200` body of `GET /v1/jobs`. -/
structure ListResp where
  total : Nat
  jobs : List Job
deriving DecidableEq, Repr

/-- The `if (status) jobList = jobList.filter(...)` step of `GET /v1/jobs`
(`status` is falsy when absent or the empty string). -/
def statusFiltered (store : JobStore) (statusQ : Option String) : List Job :=
  match statusQ with
  | some s => if s == "" then store else List.filter (fun j => statusStr j.status == s) store
  | none => store

/-- `GET /v1/jobs`: optional exact status filter, then `slice(0, limit)`
with `limit` defaulting to 10; `total` is the length of the answered list. -/
def listJobs (store : JobStore) (statusQ : Option String) (limitQ : Option Nat) : ListResp :=
  let jobList := statusFiltered store statusQ
  let jobList := jobList.take (limitQ.getD 10)
  { total := jobList.length, jobs := jobList }

/-- The `200` body of `GET /v1/jobs/:job_id/results`. -/
structure ResultsResp where
  job_id : String
  results : Option (List ResultRecord)
  num_samples : Nat
deriving DecidableEq, Repr

/-- `GET /v1/jobs/:job_id/results`: `404` on an unknown id, `400` with the
current status and progress while `job.status !== 'completed'`, otherwise
the stored results. -/
def getJobResults (store : JobStore) (job_id : String) : Except ApiError ResultsResp :=
  match findJob store job_id with
  | none => .error .notFound
  | some j =>
      if j.status ≠ .completed then
        .error (.jobNotCompleted j.status j.progress)
      else
        .ok { job_id := job_id, results := j.results, num_samples := j.num_samples }

/-- The `200` body of `POST /v1/jobs/:job_id/cancel`. -/
structure CancelResp where
  job_id : String
  status : String
  message : String
deriving DecidableEq, Repr

/-- The mutation `job.status = 'cancelled'; job.updated_at = ...` of the
cancel endpoint. -/
def applyCancel (now : Nat) (j : Job) : Job :=
  { j with status := .cancelled, updated_at := now }

/-- `POST /v1/jobs/:job_id/cancel`: `404` on an unknown id, `400` when the
status is `completed` or `failed`, otherwise sets `cancelled` and answers
success. -/
def cancelJob (store : JobStore) (job_id : String) (now : Nat) :
    Except ApiError (JobStore × CancelResp) :=
  match findJob store job_id with
  | none => .error .notFound
  | some j =>
      if j.status = .completed ∨ j.status = .failed then
        .error (.cannotCancel j.status)
      else
        .ok (updateJob store job_id (applyCancel now j),
          { job_id := job_id
            status := statusStr (applyCancel now j).status
            message := "Job cancelled successfully" })

/-- `pat` matches at the head of `s` (character-wise). -/
def startsWithChars : List Char → List Char → Bool
  | _, [] => true
  | [], _ :: _ => false
  | c :: cs, d :: ds => c == d && startsWithChars cs ds

/-- `pat` occurs somewhere inside `s` (character-wise). -/
def hasSubstrChars : List Char → List Char → Bool
  | [], pat => pat.isEmpty
  | c :: cs, pat => startsWithChars (c :: cs) pat || hasSubstrChars cs pat

/-- JS `String.prototype.includes`. -/
def strIncludes (s pat : String) : Bool :=
  hasSubstrChars s.toList pat.toList

/-- JS `String.prototype.toLowerCase` (ASCII case folding, which is all
the classifier's keyword matching relies on). -/
def toLowerCase (s : String) : String :=
  String.mk (s.data.map Char.toLower)

/-- One entry of `guidance.recommendations` in `guideJobCreation` of
`mcp-server/index.js`: either a task recommendation or the fallback object. -/
inductive Recommendation
  | task (task_type : String) (description : String)
      (suggested_config : List (String × String))
  | fallback (message : String) (available_tasks : List String)
deriving DecidableEq, Repr

/-- Whether a recommendation is the `question_answering` entry. -/
def isQARec : Recommendation → Bool
  | .task t _ _ => t == "question_answering"
  | .fallback _ _ => false

/-- The `question_answering` recommendation object. -/
def qaRec : Recommendation :=
  .task "question_answering" "Generate question-answer pairs for training or evaluation"
    [("domain", "Specify your domain (e.g., medical, legal, technical)"),
     ("difficulty", "easy, medium, or hard"),
     ("answer_length", "short, medium, or long")]

/-- The `summarization` recommendation object. -/
def summarizationRec : Recommendation :=
  .task "summarization" "Generate text summarization examples"
    [("source_length", "Length of source documents"),
     ("summary_length", "Desired summary length"),
     ("style", "abstractive or extractive")]

/-- The `classification` recommendation object. -/
def classificationRec : Recommendation :=
  .task "classification" "Generate labeled examples for classification tasks"
    [("num_classes", "Number of categories"),
     ("class_labels", "List of class names"),
     ("balance", "balanced or imbalanced distribution")]

/-- The `text_generation` recommendation object. -/
def textGenerationRec : Recommendation :=
  .task "text_generation" "Generate diverse text samples"
    [("style", "formal, casual, technical, creative"),
     ("length", "short, medium, or long"),
     ("topics", "List of topics to cover")]

/-- The fallback recommendation pushed when no keyword predicate fired. -/
def fallbackRec : Recommendation :=
  .fallback "Please specify what type of data you need"
    ["question_answering - Q&A pairs",
     "summarization - Text summaries",
     "classification - Labeled examples",
     "text_generation - General text"]

/-- The recommendation list built by `guideJobCreation`: lower-case the
goal, push one entry per matching keyword predicate, fall back to
`fallbackRec` when none matched. -/
def classifyGoal (user_goal : String) : List Recommendation :=
  let goalLower := toLowerCase user_goal
  let recs : List Recommendation := []
  let recs := if strIncludes goalLower "question" || strIncludes goalLower "qa" then
    recs ++ [qaRec] else recs
  let recs := if strIncludes goalLower "summar" then
    recs ++ [summarizationRec] else recs
  let recs := if strIncludes goalLower "classif" || strIncludes goalLower "categor" then
    recs ++ [classificationRec] else recs
  let recs := if strIncludes goalLower "generat" || strIncludes goalLower "text" then
    recs ++ [textGenerationRec] else recs
  if recs.isEmpty then [fallbackRec] else recs

/-- The fixed `guidance.next_steps` list. -/
def nextSteps : List String :=
  ["1. Choose a task_type from the recommendations",
   "2. Decide how many samples you need (num_samples)",
   "3. Configure task-specific parameters",
   "4. Use create_synthetic_data_job to start generation"]

/-- The `guidance` object answered by the `guide_job_creation` tool. -/
structure Guidance where
  user_goal : String
  recommendations : List Recommendation
  next_steps : List String
deriving DecidableEq, Repr

/-- `guideJobCreation(args)` of `mcp-server/index.js`, up to JSON
stringification of the guidance object. -/
def guideJobCreation (user_goal : String) : Guidance :=
  { user_goal := user_goal
    recommendations := classifyGoal user_goal
    next_steps := nextSteps }

/-- One element of an MCP tool response's `content` array. -/
structure ContentItem where
  type : String
  text : String
deriving DecidableEq, Repr

/-- An MCP tool response: `{content, isError?}`; success responses leave
`isError` unset. -/
structure ToolResponse where
  content : List ContentItem
  isError : Option Bool := none
deriving DecidableEq, Repr

/-- What awaiting one underlying tool handler did: returned normally or
threw a JS error carrying a message. -/
inductive ToolOutcome
  | ok (r : ToolResponse)
  | threw (msg : String)
deriving DecidableEq, Repr

/-- The six tool names of the `switch` in the `CallToolRequestSchema`
handler. -/
def knownTools : List String :=
  ["create_synthetic_data_job", "get_job_status", "list_jobs",
   "get_job_results", "cancel_job", "guide_job_creation"]

/-- The `catch` branch of the dispatch handler:
`{content: [{type: 'text', text: 'Error: ' + message}], isError: true}`. -/
def mkErrorResponse (msg : String) : ToolResponse :=
  { content := [{ type := "text", text := "Error: " ++ msg }], isError := some true }

/-- The `CallToolRequestSchema` handler: dispatch on the tool name
(`invoke` abstracts the six awaited handler calls, which may throw), throw
`Unknown tool: ...` on any other name, and convert every thrown error into
an error-flagged response. -/
def dispatchTool (name : String) (invoke : String → ToolOutcome) : ToolResponse :=
  if name ∈ knownTools then
    match invoke name with
    | .ok r => r
    | .threw m => mkErrorResponse m
  else
    mkErrorResponse ("Unknown tool: " ++ name)

/-! ### Concrete inputs used by witnesses and counterexamples -/

/-- A create request like the demo's `python-qa-dataset` job. -/
def demoReq : CreateReq :=
  { name := some "demo-job", task_type := some "question_answering", num_samples := some 50 }

/-- A well-formed create request leaving `num_samples` to its default. -/
def createReq1 : CreateReq :=
  { name := some "python-qa-dataset", task_type := some "question_answering" }

/-- A tiny create request (one sample, unrecognized task type). -/
def smallReq : CreateReq :=
  { name := some "w", task_type := some "demo", num_samples := some 1 }

/-- A job that ran to completion (final timer fired at t = 10). -/
def completedJob : Job :=
  transitionComplete 10 (fun _ => 0) (mkJob "job-c" 0 smallReq)

/-- A job cancelled at t = 1 while still pending. -/
def cancelledJob : Job :=
  applyCancel 1 (mkJob "job-x" 0 smallReq)

/-- An underlying tool handler that always throws. -/
def invokeBoom : String → ToolOutcome := fun _ => .threw "boom"

/-! ### Helper lemmas -/

/-- The generator always produces `min numSamples 10` records, whatever
the task type. -/
theorem generateMockResults_length (taskType : String) (numSamples : Nat)
    (config : Config) (rand : Nat → ℚ) :
    (generateMockResults taskType numSamples config rand).length = min numSamples 10 := by
  unfold generateMockResults
  split <;> simp

/-- The classification branch of the generator, written out. -/
theorem generateMockResults_classification (n : Nat) (config : Config) (rand : Nat → ℚ) :
    generateMockResults "classification" n config rand
      = (List.range (min n 10)).map fun i =>
          .classif (i + 1) ("Sample text for classification #" ++ toString (i + 1))
            ((classLabels config).get? (i % (classLabels config).length))
            (0.85 + rand i * 0.15) := rfl

/-! ### Claims -/

/-- Claim C3: for every completed Job, the attached results sequence has
length exactly `min(requested_sample_count, 10)`, for every task variant
and configuration: the generator caps at 10 records, and the completion
transition attaches exactly its output. -/
theorem c3_results_length :
    (∀ (taskType : String) (numSamples : Nat) (config : Config) (rand : Nat → ℚ),
      (generateMockResults taskType numSamples config rand).length = min numSamples 10)
    ∧ (∀ (now : Nat) (rand : Nat → ℚ) (j : Job),
      (transitionComplete now rand j).status = .completed
      ∧ Option.map List.length (transitionComplete now rand j).results
          = some (min j.num_samples 10)) := by
  refine ⟨generateMockResults_length, fun now rand j => ⟨rfl, ?_⟩⟩
  simp [transitionComplete, generateMockResults_length]

/-- Claim C2, counterexample: the lowered goal
`"i need 200 q&a pairs about python"` contains neither `"question"` nor
`"qa"` as a substring (the ampersand breaks `"qa"`), so the classifier
answers exactly the fallback recommendation and no `question_answering`
entry at all. -/
theorem c2_counterexample :
    classifyGoal "I need 200 Q&A pairs about Python" = [fallbackRec]
    ∧ (classifyGoal "I need 200 Q&A pairs about Python").any isQARec = false := by
  constructor <;> rfl

/-- Claim C2 as amended: classifying the goal string
`"I need 200 QA pairs about Python"` (no ampersand, so the `"qa"` keyword
matches) answers a recommendation list containing a `question_answering`
entry, and classifying `"zzz unrelated gibberish"` answers exactly one
recommendation, the fallback entry enumerating all supported task
variants. -/
theorem c2_amended :
    (classifyGoal "I need 200 QA pairs about Python").any isQARec = true
    ∧ classifyGoal "zzz unrelated gibberish" = [fallbackRec] := by
  constructor <;> rfl

/-- Claim C6: in the classification output the record at index `i`
carries label `class_labels[i mod len(class_labels)]` (with the
three-generic-label default), and concretely, with 50 requested samples
and labels positive/negative/neutral the 10 returned records cycle
`positive, negative, neutral, positive, …`. -/
theorem c6_classification_labels :
    (∀ (config : Config) (n : Nat) (rand : Nat → ℚ) (i : Nat)
      (h : i < (generateMockResults "classification" n config rand).length),
      ((generateMockResults "classification" n config rand)[i]).label
        = (classLabels config).get? (i % (classLabels config).length))
    ∧ (∀ rand : Nat → ℚ,
      (generateMockResults "classification" 50
          { class_labels := some ["positive", "negative", "neutral"] } rand).map
        ResultRecord.label
      = [some "positive", some "negative", some "neutral", some "positive", some "negative",
         some "neutral", some "positive", some "negative", some "neutral", some "positive"]) := by
  constructor
  · intro config n rand i h
    rw [generateMockResults_length] at h
    simp [generateMockResults_classification, ResultRecord.label]
  · intro rand
    rfl

/-- Witness for C6 at `i = 3`, 50 samples, labels positive/negative/neutral. -/
theorem c6_witness :
    (getElem
        (generateMockResults "classification" 50
          { class_labels := some ["positive", "negative", "neutral"] } (fun _ => 0))
        3 (by rw [generateMockResults_length]; decide)).label
      = (classLabels { class_labels := some ["positive", "negative", "neutral"] }).get?
          (3 % (classLabels { class_labels := some ["positive", "negative", "neutral"] }).length) :=
  c6_classification_labels.1 { class_labels := some ["positive", "negative", "neutral"] } 50
    (fun _ => 0) 3 (by rw [generateMockResults_length]; decide)

/-- Claim C4: the create-job operation fails with `InvalidArgument` (400)
if and only if `name` or `task_type` is empty or unset; otherwise it
stores a new pending job with progress 0 and `num_samples` defaulting to
100, answering 201 with the fresh job id at once (the job is still
pending, nothing waited for generation). -/
theorem c4_create_job_validation (store : JobStore) (jobId : String) (now : Nat)
    (req : CreateReq) :
    (createJob store jobId now req = .error (.invalidArgument "name and task_type are required")
      ↔ (req.name = none ∨ req.name = some "" ∨ req.task_type = none ∨ req.task_type = some ""))
    ∧ (∀ e, createJob store jobId now req = .error e → errorHttpStatus e = 400)
    ∧ (¬(req.name = none ∨ req.name = some "" ∨ req.task_type = none ∨ req.task_type = some "") →
      createJob store jobId now req = .ok (store ++ [mkJob jobId now req], mkCreateResp jobId req)
      ∧ (mkJob jobId now req).status = .pending
      ∧ (mkJob jobId now req).progress = 0
      ∧ (mkJob jobId now req).num_samples = req.num_samples.getD 100
      ∧ (mkJob jobId now req).results = none
      ∧ mkCreateResp jobId req
          = { job_id := jobId, status := "pending",
              message := "Job \"" ++ req.name.getD "" ++ "\" created successfully" }) := by
  obtain ⟨name, task, ns, cfg⟩ := req
  refine ⟨?_, ?_, ?_⟩
  · cases name <;> cases task <;> simp [createJob] <;> tauto
  · intro e he
    cases name <;> cases task <;> simp [createJob] at he <;> aesop
  · intro hn
    push_neg at hn
    obtain ⟨h1, h2, h3, h4⟩ := hn
    cases name with
    | none => simp at h1
    | some s =>
      cases task with
      | none => simp at h3
      | some t =>
        simp at h2 h4
        simp [createJob, h2, h4, mkJob, mkCreateResp, statusStr]

/-- Witness for C4: a well-formed request is accepted with all the stated
properties. -/
theorem c4_witness :
    ¬(createReq1.name = none ∨ createReq1.name = some "" ∨ createReq1.task_type = none
        ∨ createReq1.task_type = some "")
    ∧ (createJob [] "job-9" 0 createReq1
        = .ok ([mkJob "job-9" 0 createReq1], mkCreateResp "job-9" createReq1)
      ∧ (mkJob "job-9" 0 createReq1).status = .pending
      ∧ (mkJob "job-9" 0 createReq1).progress = 0
      ∧ (mkJob "job-9" 0 createReq1).num_samples = createReq1.num_samples.getD 100
      ∧ (mkJob "job-9" 0 createReq1).results = none
      ∧ mkCreateResp "job-9" createReq1
          = { job_id := "job-9", status := "pending",
              message := "Job \"" ++ createReq1.name.getD "" ++ "\" created successfully" }) :=
  ⟨by decide, (c4_create_job_validation [] "job-9" 0 createReq1).2.2 (by decide)⟩

/-- Claim C5: for an existing job, get-results fails with `InvalidState`
carrying exactly the job's current status and progress if and only if the
job is not completed; on a completed job it answers the stored results
with the job id and `num_samples`. -/
theorem c5_results_state_gate (store : JobStore) (jid : String) (j : Job)
    (hfind : findJob store jid = some j) :
    (getJobResults store jid = .error (.jobNotCompleted j.status j.progress)
      ↔ j.status ≠ .completed)
    ∧ (j.status = .completed →
      getJobResults store jid
        = .ok { job_id := jid, results := j.results, num_samples := j.num_samples }) := by
  constructor
  · constructor
    · intro h hc
      simp [getJobResults, hfind, hc] at h
    · intro hne
      simp [getJobResults, hfind, hne]
  · intro hc
    simp [getJobResults, hfind, hc]

/-- Witness for C5 on a concrete completed job. -/
theorem c5_witness :
    findJob [completedJob] "job-c" = some completedJob
    ∧ ((getJobResults [completedJob] "job-c"
          = .error (.jobNotCompleted completedJob.status completedJob.progress)
        ↔ completedJob.status ≠ .completed)
      ∧ (completedJob.status = .completed →
        getJobResults [completedJob] "job-c"
          = .ok { job_id := "job-c"
                  results := completedJob.results
                  num_samples := completedJob.num_samples })) :=
  ⟨rfl, c5_results_state_gate [completedJob] "job-c" completedJob rfl⟩

/-- Claim C7: the tool-dispatch handler always answers; an unknown tool
name yields the error-flagged envelope carrying `Unknown tool: ...`, a
throwing handler yields the error-flagged envelope carrying the thrown
message, and otherwise the handler's own response is passed through. -/
theorem c7_dispatch_layer (name : String) (invoke : String → ToolOutcome) :
    (name ∉ knownTools →
      dispatchTool name invoke = mkErrorResponse ("Unknown tool: " ++ name)
      ∧ (dispatchTool name invoke).isError = some true)
    ∧ (∀ m, name ∈ knownTools → invoke name = .threw m →
      dispatchTool name invoke = mkErrorResponse m
      ∧ (dispatchTool name invoke).isError = some true)
    ∧ ((dispatchTool name invoke).isError = some true
      ∨ (name ∈ knownTools ∧ ∃ r, invoke name = .ok r ∧ dispatchTool name invoke = r)) := by
  refine ⟨?_, ?_, ?_⟩
  · intro h
    simp [dispatchTool, h, mkErrorResponse]
  · intro m hk hm
    simp [dispatchTool, hk, hm, mkErrorResponse]
  · by_cases hk : name ∈ knownTools
    · cases hr : invoke name with
      | ok r => exact Or.inr ⟨hk, ⟨r, rfl, by simp [dispatchTool, hk, hr]⟩⟩
      | threw m => exact Or.inl (by simp [dispatchTool, hk, hr, mkErrorResponse])
    · exact Or.inl (by simp [dispatchTool, hk, mkErrorResponse])

/-- Witness for C7: an unknown tool name and a throwing handler both
produce the flagged error envelope. -/
theorem c7_witness :
    (dispatchTool "bogus_tool" invokeBoom = mkErrorResponse ("Unknown tool: " ++ "bogus_tool")
      ∧ (dispatchTool "bogus_tool" invokeBoom).isError = some true)
    ∧ (dispatchTool "list_jobs" invokeBoom = mkErrorResponse "boom"
      ∧ (dispatchTool "list_jobs" invokeBoom).isError = some true) :=
  ⟨(c7_dispatch_layer "bogus_tool" invokeBoom).1 (by decide),
   (c7_dispatch_layer "list_jobs" invokeBoom).2.1 "boom" (by decide) rfl⟩

/-- Claim C8: list-jobs answers a prefix of the status-filtered store in
insertion order, truncated to `limit` entries (default 10); every
returned job passes a non-empty status filter exactly; and with three
stored jobs and `limit = 2` exactly the first two are returned. -/
theorem c8_list_jobs_order :
    (∀ (store : JobStore) (sq : Option String) (lq : Option Nat),
      (listJobs store sq lq).jobs <+: statusFiltered store sq
      ∧ List.Sublist (listJobs store sq lq).jobs store
      ∧ (listJobs store sq lq).jobs.length
          = min (lq.getD 10) (statusFiltered store sq).length)
    ∧ (∀ (store : JobStore) (s : String) (lq : Option Nat) (j : Job),
      s ≠ "" → j ∈ (listJobs store (some s) lq).jobs → statusStr j.status = s)
    ∧ (∀ j1 j2 j3 : Job, (listJobs [j1, j2, j3] none (some 2)).jobs = [j1, j2]) := by
  have hpre : ∀ (store : JobStore) (sq : Option String) (lq : Option Nat),
      (listJobs store sq lq).jobs <+: statusFiltered store sq :=
    fun store sq lq => ⟨(statusFiltered store sq).drop (lq.getD 10), List.take_append_drop _ _⟩
  have hsub : ∀ (store : JobStore) (sq : Option String),
      List.Sublist (statusFiltered store sq) store := by
    intro store sq
    cases sq with
    | none => exact List.Sublist.refl _
    | some s =>
      simp only [statusFiltered]
      split
      · exact List.Sublist.refl _
      · exact List.filter_sublist _
  refine ⟨fun store sq lq => ⟨hpre store sq lq, ?_, ?_⟩, ?_, fun j1 j2 j3 => rfl⟩
  · exact ((hpre store sq lq).sublist).trans (hsub store sq)
  · simp [listJobs]
  · intro store s lq j hs hj
    have hjf : j ∈ statusFiltered store (some s) := (hpre store (some s) lq).sublist.subset hj
    simp [statusFiltered, hs] at hjf
    exact hjf.2

/-- Witness for C8's filter clause on a concrete completed job. -/
theorem c8_witness :
    ("completed" : String) ≠ ""
    ∧ completedJob ∈ (listJobs [completedJob] (some "completed") none).jobs
    ∧ statusStr completedJob.status = "completed" :=
  ⟨by decide, by decide,
   c8_list_jobs_order.2.1 [completedJob] "completed" none completedJob (by decide) (by decide)⟩

/-- Claim C9: the `total` field of a list-jobs response counts the jobs
actually returned (after filter and truncation), not the jobs held in the
store; with three stored jobs and `limit = 2` it is 2, not 3. -/
theorem c9_list_total_is_returned_length :
    (∀ (store : JobStore) (sq : Option String) (lq : Option Nat),
      (listJobs store sq lq).total = (listJobs store sq lq).jobs.length)
    ∧ (∀ j1 j2 j3 : Job,
      (listJobs [j1, j2, j3] none (some 2)).total = 2
      ∧ (listJobs [j1, j2, j3] none (some 2)).total ≠ ([j1, j2, j3] : List Job).length) :=
  ⟨fun _ _ _ => rfl, fun j1 j2 j3 => ⟨rfl, by exact (by decide : (2 : Nat) ≠ 3)⟩⟩

/-- Claim C10: cancelling a job whose status is already `cancelled`
succeeds (only `completed` and `failed` are rejected): the endpoint
answers success, and the stored job changes in nothing but `updated_at`. -/
theorem c10_cancel_cancelled_job (store : JobStore) (jid : String) (now : Nat) (j : Job)
    (hfind : findJob store jid = some j) (hst : j.status = .cancelled) :
    cancelJob store jid now
      = .ok (updateJob store jid (applyCancel now j),
        { job_id := jid, status := "cancelled", message := "Job cancelled successfully" })
    ∧ applyCancel now j = { j with updated_at := now } := by
  constructor
  · simp [cancelJob, hfind, hst, applyCancel, statusStr]
  · cases j
    simp_all [applyCancel]

/-- Witness for C10 on a concrete already-cancelled job. -/
theorem c10_witness :
    findJob [cancelledJob] "job-x" = some cancelledJob
    ∧ cancelledJob.status = .cancelled
    ∧ (cancelJob [cancelledJob] "job-x" 2
        = .ok (updateJob [cancelledJob] "job-x" (applyCancel 2 cancelledJob),
          { job_id := "job-x", status := "cancelled", message := "Job cancelled successfully" })
      ∧ applyCancel 2 cancelledJob = { cancelledJob with updated_at := 2 }) :=
  ⟨rfl, rfl, c10_cancel_cancelled_job [cancelledJob] "job-x" 2 cancelledJob rfl rfl⟩

/-- Claim C1 (code bug): the scheduled transitions of `server.js` never
check the job's status, so a cancellation is not stable.  Concretely: a
job cancelled at t = 3 while running is flipped back to `running` with
progress 75 by the 5-second timer and to `completed` with results by the
10-second timer, while the claim (and the cancel endpoint's own success
answer) say status and progress never change after `cancelled`. -/
theorem c1_cancelled_job_overwritten (rand : Nat → ℚ) :
    cancelJob [transitionRunning25 2 (mkJob "job-1" 0 demoReq)] "job-1" 3
      = .ok ([applyCancel 3 (transitionRunning25 2 (mkJob "job-1" 0 demoReq))],
        { job_id := "job-1", status := "cancelled", message := "Job cancelled successfully" })
    ∧ (applyCancel 3 (transitionRunning25 2 (mkJob "job-1" 0 demoReq))).status = .cancelled
    ∧ (transitionRunning75 5
        (applyCancel 3 (transitionRunning25 2 (mkJob "job-1" 0 demoReq)))).status = .running
    ∧ (transitionRunning75 5
        (applyCancel 3 (transitionRunning25 2 (mkJob "job-1" 0 demoReq)))).progress = 75
    ∧ (transitionComplete 10 rand (transitionRunning75 5
        (applyCancel 3 (transitionRunning25 2 (mkJob "job-1" 0 demoReq))))).status = .completed
    ∧ (transitionComplete 10 rand (transitionRunning75 5
        (applyCancel 3 (transitionRunning25 2 (mkJob "job-1" 0 demoReq))))).status
        ≠ .cancelled :=
  ⟨rfl, rfl, rfl, rfl, rfl, by simp [transitionComplete]⟩

end SynthData
